import Mathlib

set_option maxRecDepth 20000

/-
  Verification of the skills-mcp-router gateway.

  Shallow embedding of:
  - the Entry MCP Service (entry-mcp.service.ts): listMCPTools, callMCPTool,
    validateCallParams, normalizeContent, and the two fixed tool definitions;
  - the Entry MCP Server tool-listing handler (entry-mcp.server.ts);
  - the HTTP dispatch layer (http-server.ts): auth middleware, project
    (partition) resolution, the four routes, and the SSE session table.

  External collaborators (TokenValidator, ProjectRepository, the remote
  workspace flag, the backend server manager) are injected as explicit
  dependency records, mirroring the constructor injection in the source.
  JavaScript truthiness checks on optional strings are modelled explicitly
  (absent or empty string counts as falsy).
-/

namespace MCPRouter

/-- Runtime status of a managed MCP server, as in the shared types. -/
inductive ServerStatus where
  | running
  | starting
  | stopping
  | stopped
  | error
  deriving DecidableEq, Repr

/-- Tool descriptor relayed by the gateway (name, description; the input
schema is treated as an opaque string blob, passed through unmodified). -/
structure MCPToolInfo where
  name : String
  description : Option String := none
  inputSchema : Option String := none
  deriving DecidableEq, Repr

/-- Server descriptor as seen by the gateway (shared MCPServer type,
restricted to the fields the gateway reads). `toolPermissions` is the
optional name -> boolean map. -/
structure MCPServer where
  id : String
  name : String
  description : Option String := none
  status : ServerStatus
  disabled : Bool
  toolPermissions : Option (List (String × Bool)) := none
  deriving DecidableEq, Repr

/-- Opaque tool arguments (a record of key/value pairs, passed through). -/
abbrev ToolArgs := List (String × String)

/-- Raw content item coming back from a backend call: either a bare string
or an object with optional type, text, data and mimeType fields. -/
inductive RawContentItem where
  | str (s : String)
  | obj (type text data mimeType : Option String)
  deriving DecidableEq, Repr

/-- Raw result of a backend tool call (`result.content`, `result.isError`,
each possibly absent). -/
structure RawCallResult where
  content : Option (List RawContentItem) := none
  isError : Option Bool := none
  deriving DecidableEq, Repr

/-- Normalized content item (shared ToolResultContent type). -/
structure ToolResultContent where
  type : String
  text : Option String := none
  data : Option String := none
  mimeType : Option String := none
  deriving DecidableEq, Repr

/-- Result of call_mcp_tool (shared CallMCPToolResult type). -/
structure CallMCPToolResult where
  content : List ToolResultContent
  isError : Bool
  errorCode : Option String := none
  deriving DecidableEq, Repr

/-- Parameters of call_mcp_tool. -/
structure CallMCPToolParams where
  mcpName : String
  toolName : String
  arguments : ToolArgs := []
  deriving DecidableEq, Repr

/-- Parameters of list_mcp_tools. -/
structure ListMCPToolsParams where
  mcpName : Option String := none
  projectId : Option String := none
  deriving DecidableEq, Repr

/-- Per-server entry of a list_mcp_tools result (shared MCPServerInfo). -/
structure MCPServerInfo where
  name : String
  description : Option String := none
  status : ServerStatus
  toolCount : Nat
  tools : Option (List MCPToolInfo) := none
  deriving DecidableEq, Repr

/-- Result of list_mcp_tools (shared ListMCPToolsResult). -/
structure ListMCPToolsResult where
  servers : List MCPServerInfo
  message : Option String := none
  deriving DecidableEq, Repr

/-- Internal result of EntryMCPService.validateCallParams. -/
structure ValidationResult where
  valid : Bool
  error : Option String := none
  errorCode : Option String := none
  serverId : Option String := none
  deriving DecidableEq, Repr

/-- Dependencies injected into EntryMCPService. `getServers` is the
registry snapshot; `getServerTools` fetches a server's live tool list and
may throw (modelled as `Except.error`); `callTool` is the Backend
Registry's generic tool-invocation primitive, which may also throw. -/
structure EntryMCPServiceDeps where
  getServers : List MCPServer
  getServerTools : String → Except String (List MCPToolInfo)
  callTool : String → String → ToolArgs → Except String RawCallResult

/-- JavaScript truthiness of an optional string: absent or empty is falsy. -/
def optStrFalsy (o : Option String) : Bool :=
  match o with
  | none => true
  | some s => s == ""

/-- JavaScript `a || dflt` on an optional string. -/
def jsOrString (o : Option String) (dflt : String) : String :=
  match o with
  | none => dflt
  | some s => if s == "" then dflt else s

/-- Whether `server.toolPermissions` explicitly maps `toolName` to false
(the check `server.toolPermissions && server.toolPermissions[name] === false`). -/
def toolPermissionDisabled (server : MCPServer) (toolName : String) : Bool :=
  match server.toolPermissions with
  | none => false
  | some perms => perms.lookup toolName == some false

/-- EntryMCPService.validateCallParams, translated clause by clause. -/
def validateCallParams (deps : EntryMCPServiceDeps) (params : CallMCPToolParams) :
    ValidationResult :=
  let servers := deps.getServers
  match servers.find? (fun s => s.name == params.mcpName) with
  | none =>
    { valid := false
      error := some ("MCP server not found: " ++ params.mcpName)
      errorCode := some ("SERVER_NOT_FOUND") }
  | some server =>
    if server.status != ServerStatus.running then
      { valid := false
        error := some ("MCP server is not running: " ++ params.mcpName)
        errorCode := some ("SERVER_NOT_RUNNING") }
    else if server.disabled then
      { valid := false
        error := some ("MCP server is disabled: " ++ params.mcpName)
        errorCode := some ("SERVER_DISABLED") }
    else
      match deps.getServerTools server.id with
      | Except.error _ =>
        { valid := false
          error := some ("Failed to get tools from server: " ++ params.mcpName)
          errorCode := some ("TOOLS_FETCH_FAILED") }
      | Except.ok tools =>
        match tools.find? (fun t => t.name == params.toolName) with
        | none =>
          { valid := false
            error := some ("Tool not found: " ++ params.toolName ++ " on server " ++ params.mcpName)
            errorCode := some ("TOOL_NOT_FOUND") }
        | some _ =>
          if toolPermissionDisabled server params.toolName then
            { valid := false
              error := some ("Tool is disabled: " ++ params.toolName)
              errorCode := some ("TOOL_DISABLED") }
          else
            { valid := true, serverId := some server.id }

/-- EntryMCPService.normalizeContent: bare strings are promoted to text
items; objects keep their fields with `type` defaulting to text. -/
def normalizeContent (content : List RawContentItem) : List ToolResultContent :=
  content.map (fun item =>
    match item with
    | RawContentItem.str s => { type := "text", text := some s }
    | RawContentItem.obj ty tx d m =>
      { type := jsOrString ty ("text"), text := tx, data := d, mimeType := m })

/-- EntryMCPService.callMCPTool: validate, then invoke the backend call
primitive, catching any thrown error as a CALL_FAILED error result. -/
def callMCPTool (deps : EntryMCPServiceDeps) (params : CallMCPToolParams) :
    CallMCPToolResult :=
  let validation := validateCallParams deps params
  if !validation.valid then
    { content := [{ type := "text", text := validation.error }]
      isError := true
      errorCode := validation.errorCode }
  else
    match deps.callTool params.mcpName params.toolName params.arguments with
    | Except.ok result =>
      { content := normalizeContent (result.content.getD [])
        isError := result.isError.getD false }
    | Except.error msg =>
      { content := [{ type := "text", text := some ("Error: " ++ msg) }]
        isError := true
        errorCode := some ("CALL_FAILED") }

/-- EntryMCPService.listMCPTools, translated clause by clause. -/
def listMCPTools (deps : EntryMCPServiceDeps) (params : ListMCPToolsParams) :
    ListMCPToolsResult :=
  match params.mcpName with
  | none => { servers := [], message := some ("请查看mcp-router技能") }
  | some mcpName =>
    if mcpName == "" then
      { servers := [], message := some ("请查看mcp-router技能") }
    else
      match deps.getServers.find?
          (fun s => s.name == mcpName && s.status == ServerStatus.running && !s.disabled) with
      | none =>
        { servers := []
          message := some ("MCP服务器 \"" ++ mcpName ++ "\" 未找到或未运行") }
      | some server =>
        match deps.getServerTools server.id with
        | Except.ok tools =>
          { servers := [{ name := server.name
                          description := server.description
                          status := server.status
                          toolCount := tools.length
                          tools := some tools }] }
        | Except.error _ =>
          { servers := []
            message := some ("获取 \"" ++ mcpName ++ "\" 的工具列表失败") }

/-- One property of a fixed JSON-schema object (name, type, description,
optional additionalProperties flag). -/
structure SchemaProperty where
  name : String
  type : String
  description : String
  additionalProperties : Option Bool := none
  deriving DecidableEq, Repr

/-- A fixed facade tool definition (name, description, object schema with
its properties and required list). -/
structure ToolDefinition where
  name : String
  description : String
  schemaType : String
  properties : List SchemaProperty
  required : List String
  deriving DecidableEq, Repr

/-- EntryMCPService.getListMCPToolsDefinition (verbatim shape). -/
def getListMCPToolsDefinition : ToolDefinition :=
  { name := "list_mcp_tools"
    description := "查询指定MCP服务器的可用工具列表。\n\n使用前提：\n- 必须先阅读 mcp-router 的 SKILL.md 技能文件了解有哪些可用的MCP服务器\n- 必须指定 mcpName 参数\n\n返回信息包含：服务器描述、工具列表及每个工具的用途说明。"
    schemaType := "object"
    properties := [{ name := "mcpName"
                     type := "string"
                     description := "必填，MCP服务器名称（从SKILL.md技能文件中获取）" }]
    required := ["mcpName"] }

/-- EntryMCPService.getCallMCPToolDefinition (verbatim shape). -/
def getCallMCPToolDefinition : ToolDefinition :=
  { name := "call_mcp_tool"
    description := "调用指定MCP服务器上的工具。\n\n使用流程：\n1. 先使用 list_mcp_tools 查询目标服务器的工具列表\n2. 根据工具描述选择合适的工具\n3. 按照工具的 inputSchema 提供正确的参数\n\n注意事项：\n- 调用前必须确认工具名称和参数格式正确\n- 如果调用失败，请检查参数是否符合工具要求\n- 不要重复调用同一工具，除非用户明确要求"
    schemaType := "object"
    properties := [{ name := "mcpName"
                     type := "string"
                     description := "MCP服务器名称" },
                   { name := "toolName"
                     type := "string"
                     description := "要调用的工具名称（从list_mcp_tools返回的工具列表中选择）" },
                   { name := "arguments"
                     type := "object"
                     description := "工具参数（根据工具的inputSchema提供）"
                     additionalProperties := some true }]
    required := ["mcpName", "toolName"] }

/-- The EntryMCPServer ListTools handler: always exactly the two fixed
operation descriptors, never any backend tool. -/
def entryListToolsHandler : List ToolDefinition :=
  [getListMCPToolsDefinition, getCallMCPToolDefinition]

/- ------------------------------------------------------------------
   HTTP dispatch layer (http-server.ts)
   ------------------------------------------------------------------ -/

/-- Result of TokenValidator.validateToken (collaborator interface). -/
structure TokenValidation where
  isValid : Bool
  error : Option String := none
  deriving DecidableEq, Repr

/-- Injected collaborators of the HTTP server: the Credential Validator,
the remote-workspace flag of the Platform API manager, and the Partition
Resolver (ProjectRepository.findByName, returning the found project id).
These classes live outside the gateway and are modelled as opaque
functions, as the spec prescribes for external collaborators. -/
structure GatewayEnv where
  validateToken : String → TokenValidation
  isRemoteWorkspace : Bool
  findProjectIdByName : String → Option String

/-- Modelled from the spec: the explicit unassigned-partition sentinel
value (the UNASSIGNED_PROJECT_ID constant imported from the shared
package, whose source is not part of the gateway). Its concrete value is
irrelevant to every theorem below. -/
def UNASSIGNED_PROJECT_ID : String := "unassigned"

/-- The `_meta` block attached to a forwarded request (token, projectId). -/
structure RequestMeta where
  token : Option String := none
  projectId : Option String := none
  deriving DecidableEq, Repr

/-- The `params` object of a JSON-RPC payload: an optional `_meta` block
plus the remaining caller-supplied fields, passed through opaquely. -/
structure PayloadParams where
  meta : Option RequestMeta := none
  fields : List (String × String) := []
  deriving DecidableEq, Repr

/-- A JSON-RPC-shaped request body (id, optional params object). -/
structure Payload where
  id : Option String := none
  params : Option PayloadParams := none
  deriving DecidableEq, Repr

/-- MCPHttpServer.attachRequestMetadata: merge `{token, projectId}` into
`params._meta` (creating `params` when absent). Spreading the old meta
and then writing both keys leaves exactly these two fields. -/
def attachRequestMetadata (payload : Payload) (tokenHeader : Option String)
    (projectId : Option String) : Payload :=
  match payload.params with
  | some ps =>
    { payload with
        params := some { ps with meta := some { token := tokenHeader, projectId := projectId } } }
  | none =>
    { payload with
        params := some { meta := some { token := tokenHeader, projectId := projectId } } }

/-- The metadata block reachable from a payload, if any. -/
def payloadMeta (p : Payload) : Option RequestMeta :=
  p.params.bind PayloadParams.meta

/-- An inbound HTTP request, restricted to the fields the gateway reads. -/
structure HttpRequest where
  method : String
  path : String
  authorization : Option String := none
  projectHeader : Option String := none
  querySessionId : Option String := none
  headerSessionId : Option String := none
  body : Payload := {}
  deriving DecidableEq, Repr

/-- The SSE session table: the keys of `sseSessions` (transports are
opaque) and the `sseSessionProjects` map from session id to the partition
scope captured at open time. -/
structure ServerState where
  sseSessions : List String := []
  sseSessionProjects : List (String × Option String) := []
  deriving DecidableEq, Repr

/-- Which backend transport handler a request was forwarded to. -/
inductive BackendCall where
  | entry (body : Payload)
  | aggregator (body : Payload)
  | sessionMessage (sessionId : String) (body : Payload)
  deriving DecidableEq, Repr

/-- The response produced by one route invocation, as observed on the
wire: 401 envelopes, JSON-RPC error envelopes, the SSE stream with the
frames written by gateway code, a plain-text SSE-open failure, a forward
to a backend transport, or the Express fallthrough. -/
inductive HttpResponse where
  | unauthorized (message : String)
  | jsonRpcError (status : Nat) (code : Int) (message : String) (id : Option String)
  | sseOpened (frames : List String)
  | sseOpenError (status : Nat) (message : String)
  | forwarded (call : BackendCall)
  | notFound
  deriving DecidableEq, Repr

/-- The Bearer-stripping applied to the authorization header (the
`startsWith` test and `substring(7)` of the source, expressed over the
character list). -/
def stripBearer (t : String) : String :=
  if ("Bearer ").data.isPrefixOf t.data then t.drop 7 else t

/-- Outcome of the auth middleware: reject with a 401 message, or proceed
with the rewritten (Bearer-stripped) authorization header value. -/
inductive AuthOutcome where
  | rejected (message : String)
  | allowed (effectiveAuth : String)
  deriving DecidableEq, Repr

/-- The auth middleware installed on the /mcp and /mcp/sse mounts:
missing (or falsy) token is rejected outright; otherwise the
Bearer-stripped token id is passed to the Credential Validator, and an
invalid verdict is rejected with the validator's reason (or a default). -/
def authMiddleware (env : GatewayEnv) (authHeader : Option String) : AuthOutcome :=
  match authHeader with
  | none => AuthOutcome.rejected ("Authentication required. Please provide a valid token.")
  | some t =>
    if t == "" then
      AuthOutcome.rejected ("Authentication required. Please provide a valid token.")
    else
      let tokenId := stripBearer t
      let v := env.validateToken tokenId
      if v.isValid then AuthOutcome.allowed (stripBearer t)
      else AuthOutcome.rejected (jsOrString v.error ("Invalid token. Authentication failed."))

/-- Whitespace trimmed from a header value (the `trim()` call of the
source, expressed over the character list). -/
def isTrimmableChar (c : Char) : Bool :=
  c == ' ' || c == '\t' || c == '\n' || c == '\r'

/-- `value.trim()` on a header value. -/
def jsTrim (s : String) : String :=
  String.mk (((s.data.dropWhile isTrimmableChar).reverse.dropWhile isTrimmableChar).reverse)

/-- Express mount matching: a middleware mounted at `mount` runs for the
path equal to it or any path under it. -/
def pathMatchesMount (mount p : String) : Bool :=
  p == mount || (mount ++ "/").data.isPrefixOf p.data

/-- The two mounts carrying the auth middleware. -/
def authMounts : List String := ["/mcp", "/mcp/sse"]

/-- Whether the auth middleware runs for a request path. -/
def authApplies (p : String) : Bool :=
  authMounts.any (fun m => pathMatchesMount m p)

/-- Result of MCPHttpServer.resolveProjectFilter. -/
structure ProjectResolution where
  projectId : Option String
  provided : Bool
  deriving DecidableEq, Repr

/-- MCPHttpServer.resolveProjectFilter: absent header means no filter;
blank or the unassigned sentinel mean an explicit null filter; with
`skipValidation` the trimmed raw value is trusted verbatim; otherwise the
name is resolved through the Partition Resolver, and an unknown name
throws (modelled as `Except.error` carrying the 400 message). -/
def resolveProjectFilter (env : GatewayEnv) (headerValue : Option String)
    (skipValidation : Bool) : Except String ProjectResolution :=
  match headerValue with
  | none => Except.ok { projectId := none, provided := false }
  | some raw =>
    let value := jsTrim raw
    if value == "" then Except.ok { projectId := none, provided := true }
    else if value == UNASSIGNED_PROJECT_ID then Except.ok { projectId := none, provided := true }
    else if skipValidation then Except.ok { projectId := some value, provided := true }
    else
      match env.findProjectIdByName value with
      | some pid => Except.ok { projectId := some pid, provided := true }
      | none => Except.error ("Project \"" ++ value ++ "\" not found")

/-- JavaScript `modifiedBody.id || null`. -/
def jsOrNullId (i : Option String) : Option String :=
  if optStrFalsy i then none else i

/-- JavaScript `a || b` for the session id sources (query parameter, then
the mcp-session-id header), with the subsequent `if (!sessionId)` guard:
the first truthy value, if any. -/
def firstTruthy (a b : Option String) : Option String :=
  if optStrFalsy a then (if optStrFalsy b then none else b) else a

/-- Does the session table contain a live transport for this id? -/
def lookupSession (st : ServerState) (sid : String) : Bool :=
  st.sseSessions.any (fun s => s == sid)

/-- The partition scope stored for a session id, if the id is present. -/
def sessionProject (st : ServerState) (sid : String) : Option (Option String) :=
  st.sseSessionProjects.lookup sid

/-- Registration performed by a successful stream-open: record the
transport and the partition scope captured at that moment. -/
def regSession (st : ServerState) (sid : String) (projectId : Option String) : ServerState :=
  { sseSessions := sid :: st.sseSessions
    sseSessionProjects := (sid, projectId) :: st.sseSessionProjects }

/-- The close-event cleanup registered at open time: both maps drop the
session id. -/
def closeSession (st : ServerState) (sid : String) : ServerState :=
  { sseSessions := st.sseSessions.filter (fun s => s != sid)
    sseSessionProjects := st.sseSessionProjects.filter (fun kv => kv.1 != sid) }

/-- The first frame written by the stream-open handler:
`data: ` followed by `JSON.stringify(\x7bsessionId\x7d)`. -/
def sessionIdFrame (sid : String) : String :=
  "data: \x7b\"sessionId\":\"" ++ sid ++ "\"\x7d\n\n"

/-- POST /mcp: shallow-copy the body and hand it to the Entry MCP
Server's transport handler, unchanged. -/
def handleEntryRoute (st : ServerState) (req : HttpRequest) :
    HttpResponse × ServerState :=
  (HttpResponse.forwarded (BackendCall.entry req.body), st)

/-- POST /mcp/aggregator: resolve the partition header (validation
skipped when the workspace is remote); on failure answer a 400 JSON-RPC
envelope and do not forward; on success attach `{token, projectId}` and
forward to the aggregator transport. -/
def handleAggregatorRoute (env : GatewayEnv) (st : ServerState) (req : HttpRequest)
    (effectiveAuth : String) : HttpResponse × ServerState :=
  let modifiedBody := req.body
  match resolveProjectFilter env req.projectHeader env.isRemoteWorkspace with
  | Except.error msg =>
    (HttpResponse.jsonRpcError 400 (-32602) msg (jsOrNullId modifiedBody.id), st)
  | Except.ok r =>
    (HttpResponse.forwarded
      (BackendCall.aggregator (attachRequestMetadata modifiedBody (some effectiveAuth) r.projectId)),
     st)

/-- GET /mcp/sse: resolve the partition header (validation skipped when
the workspace is remote); on failure answer a 400 plain error and keep
the table unchanged; on success register the session with the captured
scope, connect the channel, and write the session-id frame. -/
def handleSseOpenRoute (env : GatewayEnv) (st : ServerState) (req : HttpRequest)
    (freshSid : String) : HttpResponse × ServerState :=
  match resolveProjectFilter env req.projectHeader env.isRemoteWorkspace with
  | Except.error msg => (HttpResponse.sseOpenError 400 msg, st)
  | Except.ok r =>
    let st2 := regSession st freshSid r.projectId
    (HttpResponse.sseOpened [sessionIdFrame freshSid], st2)

/-- POST /mcp/messages: find the session by query parameter or header;
missing id or unknown session answer 400/404 envelopes; otherwise resolve
a caller-supplied partition header with full validation (never skipped),
fall back to the session's stored scope when no header was provided,
attach metadata and forward to the session's channel. The table is never
mutated here. -/
def handleMessagesRoute (env : GatewayEnv) (st : ServerState) (req : HttpRequest)
    (effectiveAuth : String) : HttpResponse × ServerState :=
  match firstTruthy req.querySessionId req.headerSessionId with
  | none => (HttpResponse.jsonRpcError 400 (-32000) ("Session ID is required") none, st)
  | some sid =>
    if !lookupSession st sid then
      (HttpResponse.jsonRpcError 404 (-32000) ("Session not found or expired") none, st)
    else
      let modifiedBody := req.body
      match resolveProjectFilter env req.projectHeader false with
      | Except.error msg =>
        (HttpResponse.jsonRpcError 400 (-32602) msg (jsOrNullId modifiedBody.id), st)
      | Except.ok r =>
        let projectFilter :=
          if r.provided then r.projectId else (sessionProject st sid).getD none
        (HttpResponse.forwarded
          (BackendCall.sessionMessage sid
            (attachRequestMetadata modifiedBody (some effectiveAuth) projectFilter)),
         st)

/-- Is (method, path) one of the four gateway routes? -/
def isGatewayRoute (method p : String) : Bool :=
  (method == "POST" && p == "/mcp") ||
  (method == "POST" && p == "/mcp/aggregator") ||
  (method == "GET" && p == "/mcp/sse") ||
  (method == "POST" && p == "/mcp/messages")

/-- One request through the Express app: the auth middleware runs for
every path under its mounts (all four routes are), then the matching
route handler runs with the rewritten authorization header. `freshSid` is
the session id the SSE transport would generate for this request. -/
def handleRequest (env : GatewayEnv) (st : ServerState) (req : HttpRequest)
    (freshSid : String) : HttpResponse × ServerState :=
  if authApplies req.path then
    match authMiddleware env req.authorization with
    | AuthOutcome.rejected m => (HttpResponse.unauthorized m, st)
    | AuthOutcome.allowed eff =>
      if req.method == "POST" && req.path == "/mcp" then
        handleEntryRoute st req
      else if req.method == "POST" && req.path == "/mcp/aggregator" then
        handleAggregatorRoute env st req eff
      else if req.method == "GET" && req.path == "/mcp/sse" then
        handleSseOpenRoute env st req freshSid
      else if req.method == "POST" && req.path == "/mcp/messages" then
        handleMessagesRoute env st req eff
      else (HttpResponse.notFound, st)
  else (HttpResponse.notFound, st)

/- ------------------------------------------------------------------
   Specification-side definitions and helpers
   ------------------------------------------------------------------ -/

/-- The call-one-tool validation checklist as the specification words it,
in its stated strict order: (1) server exists by name else
SERVER_NOT_FOUND, (2) runtimeStatus running else SERVER_NOT_RUNNING,
(3) not disabled else SERVER_DISABLED, (4) the freshly fetched tool list
contains the tool else TOOL_NOT_FOUND (a fetch failure yielding
TOOLS_FETCH_FAILED), (5) toolPermissions does not explicitly set the tool
to false else TOOL_DISABLED; the first failing check's code, if any.
Written from the claim's wording, to be compared with the code's
`validateCallParams`. -/
def claimValidationCode (deps : EntryMCPServiceDeps) (params : CallMCPToolParams) :
    Option String :=
  match deps.getServers.find? (fun s => s.name == params.mcpName) with
  | none => some ("SERVER_NOT_FOUND")
  | some server =>
    if server.status != ServerStatus.running then some ("SERVER_NOT_RUNNING")
    else if server.disabled then some ("SERVER_DISABLED")
    else
      match deps.getServerTools server.id with
      | Except.error _ => some ("TOOLS_FETCH_FAILED")
      | Except.ok tools =>
        match tools.find? (fun t => t.name == params.toolName) with
        | none => some ("TOOL_NOT_FOUND")
        | some _ =>
          if toolPermissionDisabled server params.toolName then some ("TOOL_DISABLED")
          else none

/-- Executable substring test: `needle` occurs contiguously in `hay`. -/
def strContainsSub (hay needle : String) : Bool :=
  (List.range (hay.data.length + 1)).any (fun i => needle.data.isPrefixOf (hay.data.drop i))

/- Concrete inputs used by the witnesses and counterexamples below. -/

/-- A running, enabled backend server. -/
def serverFS : MCPServer :=
  { id := "id1", name := "filesystem", status := ServerStatus.running, disabled := false }

/-- Service dependencies whose backend call primitive throws. -/
def depsThrowingCall : EntryMCPServiceDeps :=
  { getServers := [serverFS]
    getServerTools := fun _ => Except.ok [{ name := "read_file" }]
    callTool := fun _ _ _ => Except.error ("boom") }

/-- Parameters addressing the read_file tool on the filesystem server. -/
def paramsRead : CallMCPToolParams :=
  { mcpName := "filesystem", toolName := "read_file" }

/-- Service dependencies with an empty registry. -/
def depsEmptyRegistry : EntryMCPServiceDeps :=
  { getServers := []
    getServerTools := fun _ => Except.error ("down")
    callTool := fun _ _ _ => Except.error ("down") }

/-- A credential validator accepting every token. -/
def envAcceptAll : GatewayEnv :=
  { validateToken := fun _ => { isValid := true }
    isRemoteWorkspace := false
    findProjectIdByName := fun _ => none }

/-- A credential validator rejecting every token with a reason. -/
def envRejectAll : GatewayEnv :=
  { validateToken := fun _ => { isValid := false, error := some ("bad token") }
    isRemoteWorkspace := false
    findProjectIdByName := fun _ => none }

/-- A remote workspace accepting every token and resolving no partition. -/
def envRemote : GatewayEnv :=
  { validateToken := fun _ => { isValid := true }
    isRemoteWorkspace := true
    findProjectIdByName := fun _ => none }

/-- A facade call carrying a token and a partition header. -/
def reqFacadeCex : HttpRequest :=
  { method := "POST", path := "/mcp", authorization := some ("Bearer tok")
    projectHeader := some ("projA")
    body := { id := some ("1") } }

/-- A facade call carrying no Authorization token. -/
def reqNoAuth : HttpRequest :=
  { method := "POST", path := "/mcp" }

/-- A stream-open request with a valid token and no partition header. -/
def reqSseOpen : HttpRequest :=
  { method := "GET", path := "/mcp/sse", authorization := some ("Bearer tok") }

/-- A full-surface call with an unresolvable partition header. -/
def reqAggBadProj : HttpRequest :=
  { method := "POST", path := "/mcp/aggregator", authorization := some ("tok2")
    projectHeader := some (" projX ")
    body := { id := some ("7") } }

/-- A session table holding one live session s9 scoped to partition p9. -/
def stOne : ServerState :=
  { sseSessions := ["s9"], sseSessionProjects := [("s9", some ("p9"))] }

/-- A stream-message for live session s9 with an unresolvable partition
header override. -/
def reqMsgBadProj : HttpRequest :=
  { method := "POST", path := "/mcp/messages", authorization := some ("tok")
    projectHeader := some ("projX"), querySessionId := some ("s9")
    body := { id := some ("3") } }

/-- A stream-message referencing a session id absent from the table. -/
def reqMsgUnknown : HttpRequest :=
  { method := "POST", path := "/mcp/messages", authorization := some ("tok")
    querySessionId := some ("sX") }

/- ------------------------------------------------------------------
   Helper lemmas
   ------------------------------------------------------------------ -/

theorem isPrefixOf_append_self {α : Type} [BEq α] [LawfulBEq α] (l t : List α) :
    l.isPrefixOf (l ++ t) = true := by
  induction l with
  | nil => cases t <;> rfl
  | cons a as ih =>
    show (a == a && List.isPrefixOf as (as ++ t)) = true
    simp [ih]

theorem string_data_append (a b : String) : (a ++ b).data = a.data ++ b.data := by
  cases a
  cases b
  rfl

theorem string_append_empty (s : String) : s ++ "" = s := by
  cases s with
  | mk d =>
    show String.mk (d ++ []) = String.mk d
    rw [List.append_nil]

theorem strContainsSub_append (a m b : String) :
    strContainsSub (a ++ m ++ b) m = true := by
  have hdata : (a ++ m ++ b).data = a.data ++ (m.data ++ b.data) := by
    rw [string_data_append, string_data_append, List.append_assoc]
  unfold strContainsSub
  apply List.any_eq_true.mpr
  refine ⟨a.data.length, ?_, ?_⟩
  · apply List.mem_range.mpr
    rw [hdata]
    simp only [List.length_append]
    omega
  · rw [hdata, List.drop_left]
    exact isPrefixOf_append_self m.data b.data

theorem strContainsSub_suffix (a m : String) :
    strContainsSub (a ++ m) m = true := by
  have h : a ++ m ++ "" = a ++ m := string_append_empty (a ++ m)
  have h2 := strContainsSub_append a m ""
  rwa [h] at h2

theorem any_beq_filter_ne (l : List String) (sid : String) :
    (l.filter (fun s => s != sid)).any (fun s => s == sid) = false := by
  induction l with
  | nil => rfl
  | cons a as ih =>
    by_cases h : a = sid
    · subst h
      simp [List.filter, ih]
    · have hb : (a != sid) = true := bne_iff_ne.mpr h
      have hk : (a == sid) = false := beq_eq_false_iff_ne.mpr h
      simp [List.filter, hb, hk, ih]

theorem lookup_filter_ne (l : List (String × Option String)) (k : String) :
    (l.filter (fun kv => kv.1 != k)).lookup k = none := by
  induction l with
  | nil => rfl
  | cons a as ih =>
    rcases a with ⟨k1, v1⟩
    by_cases h : k1 = k
    · subst h
      simp [List.filter, ih]
    · have hb : (k1 != k) = true := bne_iff_ne.mpr h
      have hk : (k == k1) = false := beq_eq_false_iff_ne.mpr (Ne.symm h)
      simp [List.filter, hb, List.lookup, hk, ih]

theorem string_append_ne_empty (a m b : String) (ha : a.data ≠ []) :
    ((a ++ m ++ b) == "") = false := by
  apply beq_eq_false_iff_ne.mpr
  intro h
  have hd : (a ++ m ++ b).data = [] := by rw [h]
  rw [string_data_append, string_data_append] at hd
  rcases List.append_eq_nil.mp hd with ⟨h1, h2⟩
  exact ha (List.append_eq_nil.mp h1).1

theorem authApplies_of_gateway (method p : String)
    (h : isGatewayRoute method p = true) : authApplies p = true := by
  unfold isGatewayRoute at h
  simp only [Bool.or_eq_true, Bool.and_eq_true, beq_iff_eq] at h
  have hp : p = "/mcp" ∨ p = "/mcp/aggregator" ∨ p = "/mcp/sse" ∨ p = "/mcp/messages" := by
    tauto
  rcases hp with hp | hp | hp | hp <;> rw [hp] <;> decide

theorem handleMessagesRoute_state (env : GatewayEnv) (st : ServerState)
    (req : HttpRequest) (eff : String) :
    (handleMessagesRoute env st req eff).2 = st := by
  unfold handleMessagesRoute
  cases firstTruthy req.querySessionId req.headerSessionId with
  | none => rfl
  | some sid =>
    by_cases h : lookupSession st sid = true
    · simp only [h]
      cases resolveProjectFilter env req.projectHeader false <;> simp
    · have h2 : lookupSession st sid = false := by
        cases hb : lookupSession st sid
        · rfl
        · exact absurd hb h
      simp [h2]

theorem handleAggregatorRoute_state (env : GatewayEnv) (st : ServerState)
    (req : HttpRequest) (eff : String) :
    (handleAggregatorRoute env st req eff).2 = st := by
  unfold handleAggregatorRoute
  cases resolveProjectFilter env req.projectHeader env.isRemoteWorkspace <;> simp

/- ------------------------------------------------------------------
   Claim theorems
   ------------------------------------------------------------------ -/

/-- C1: for every call-one-tool invocation, validation runs in the strict
order (1) server exists else SERVER_NOT_FOUND, (2) running else
SERVER_NOT_RUNNING, (3) not disabled else SERVER_DISABLED, (4) fresh tool
list contains the tool else TOOL_NOT_FOUND (fetch failure yielding
TOOLS_FETCH_FAILED), (5) toolPermissions not explicitly false else
TOOL_DISABLED; it short-circuits at the first failure with that distinct
code, and on any validation failure the Backend Registry's call primitive
is never invoked (the result is flagged as an error with the first
failing check's code and does not depend on the call primitive at all). -/
theorem callMCPTool_validation_order (servers : List MCPServer)
    (serverTools : String → Except String (List MCPToolInfo))
    (f g : String → String → ToolArgs → Except String RawCallResult)
    (params : CallMCPToolParams) :
    match claimValidationCode ⟨servers, serverTools, f⟩ params with
    | some code =>
      (callMCPTool ⟨servers, serverTools, f⟩ params).isError = true ∧
      (callMCPTool ⟨servers, serverTools, f⟩ params).errorCode = some code ∧
      callMCPTool ⟨servers, serverTools, f⟩ params = callMCPTool ⟨servers, serverTools, g⟩ params
    | none => (validateCallParams ⟨servers, serverTools, f⟩ params).valid = true := by
  cases hfind : servers.find? (fun s => s.name == params.mcpName) with
  | none => simp [claimValidationCode, callMCPTool, validateCallParams, hfind]
  | some server =>
    by_cases hst : server.status = ServerStatus.running
    · by_cases hdis : server.disabled = true
      · simp [claimValidationCode, callMCPTool, validateCallParams, hfind, hst, hdis]
      · cases htools : serverTools server.id with
        | error e =>
          simp [claimValidationCode, callMCPTool, validateCallParams, hfind, hst, hdis, htools]
        | ok tools =>
          cases hfind2 : tools.find? (fun t => t.name == params.toolName) with
          | none =>
            simp [claimValidationCode, callMCPTool, validateCallParams, hfind, hst, hdis,
              htools, hfind2]
          | some tool =>
            by_cases hperm : toolPermissionDisabled server params.toolName = true
            · simp [claimValidationCode, callMCPTool, validateCallParams, hfind, hst, hdis,
                htools, hfind2, hperm]
            · simp [claimValidationCode, callMCPTool, validateCallParams, hfind, hst, hdis,
                htools, hfind2, hperm]
    · simp [claimValidationCode, callMCPTool, validateCallParams, hfind, hst]

/-- C2: if validation passes and the Backend Registry's tool-invocation
primitive throws, the exception is caught and converted into a result
with isError true, errorCode CALL_FAILED, and the thrown message present
in the text content; it never propagates (callMCPTool is total). -/
theorem callMCPTool_backend_throw (deps : EntryMCPServiceDeps)
    (params : CallMCPToolParams) (msg : String)
    (hvalid : (validateCallParams deps params).valid = true)
    (hcall : deps.callTool params.mcpName params.toolName params.arguments = Except.error msg) :
    callMCPTool deps params =
      { content := [{ type := "text", text := some ("Error: " ++ msg) }]
        isError := true
        errorCode := some ("CALL_FAILED") } ∧
    strContainsSub ("Error: " ++ msg) msg = true := by
  constructor
  · simp [callMCPTool, hvalid, hcall]
  · exact strContainsSub_suffix ("Error: ") msg

/-- Witness for C2: a concrete running server whose backend call throws
the message boom. -/
theorem callMCPTool_backend_throw_witness :
    callMCPTool depsThrowingCall paramsRead =
      { content := [{ type := "text", text := some ("Error: " ++ "boom") }]
        isError := true
        errorCode := some ("CALL_FAILED") } ∧
    strContainsSub ("Error: " ++ "boom") ("boom") = true :=
  callMCPTool_backend_throw depsThrowingCall paramsRead ("boom") (by decide) rfl

/-- C7: the facade tool-listing query returns exactly the two fixed
operation descriptors list_mcp_tools and call_mcp_tool; list_mcp_tools
takes mcpName (required); call_mcp_tool takes mcpName and toolName
(required) and arguments — but, contrary to the documented schema (ADR
and unit test), the call_mcp_tool schema carries no timeoutSec property. -/
theorem entry_list_tools_schema :
    entryListToolsHandler.map ToolDefinition.name = ["list_mcp_tools", "call_mcp_tool"] ∧
    getListMCPToolsDefinition.properties.map SchemaProperty.name = ["mcpName"] ∧
    getListMCPToolsDefinition.required = ["mcpName"] ∧
    getCallMCPToolDefinition.properties.map SchemaProperty.name =
      ["mcpName", "toolName", "arguments"] ∧
    getCallMCPToolDefinition.required = ["mcpName", "toolName"] ∧
    ((getCallMCPToolDefinition.properties.map SchemaProperty.name).contains ("timeoutSec")
      = false) := by
  decide

/-- C3: on each of the four routes, a request with no Authorization token
is answered unauthorized and terminates before any business logic or
backend call runs (nothing is forwarded and the session table is
untouched); a present token rejected by the Credential Validator is
likewise answered unauthorized carrying the validator's reason. -/
theorem auth_gate_unauthorized (env : GatewayEnv) (st : ServerState)
    (req : HttpRequest) (freshSid : String)
    (hroute : isGatewayRoute req.method req.path = true) :
    (req.authorization = none →
       handleRequest env st req freshSid =
         (HttpResponse.unauthorized ("Authentication required. Please provide a valid token."),
          st)) ∧
    (∀ t reason, req.authorization = some t → (t == "") = false →
       env.validateToken (stripBearer t) = { isValid := false, error := some reason } →
       (reason == "") = false →
       handleRequest env st req freshSid = (HttpResponse.unauthorized reason, st)) := by
  have happ := authApplies_of_gateway req.method req.path hroute
  constructor
  · intro hnone
    simp [handleRequest, happ, authMiddleware, hnone]
  · intro t reason hsome hne hval hrne
    have hmw : authMiddleware env req.authorization = AuthOutcome.rejected reason := by
      simp [authMiddleware, hsome, hne, hval, jsOrString, hrne]
    simp [handleRequest, happ, hmw]

/-- Witness for C3: a facade call without a token is answered 401. -/
theorem auth_gate_unauthorized_witness :
    handleRequest envAcceptAll {} reqNoAuth ("s1") =
      (HttpResponse.unauthorized ("Authentication required. Please provide a valid token."),
       {}) :=
  (auth_gate_unauthorized envAcceptAll {} reqNoAuth ("s1") (by decide)).1 rfl

/-- C4 counterexample: a facade call that passes authentication and
carries both a token and a partition header is forwarded to the Entry
Façade Server with its body unchanged — no metadata block, hence neither
partition nor token, is attached on the facade route at the concrete
input reqFacadeCex, refuting the claim. -/
theorem facade_metadata_cex :
    handleRequest envAcceptAll {} reqFacadeCex ("s1") =
      (HttpResponse.forwarded (BackendCall.entry { id := some ("1") }), {}) ∧
    payloadMeta { id := some ("1") } = none := by
  decide

/-- C4 (amended): every facade-route call that passes the authentication
gate forwards the request body unchanged to the Entry Façade Server's
transport handler; no partition or token metadata is attached on this
route (attachment happens only on the full-surface and stream-message
routes). -/
theorem facade_forwards_body_unchanged (env : GatewayEnv) (st : ServerState)
    (req : HttpRequest) (freshSid : String) (eff : String)
    (hm : req.method = "POST") (hp : req.path = "/mcp")
    (hauth : authMiddleware env req.authorization = AuthOutcome.allowed eff) :
    handleRequest env st req freshSid =
      (HttpResponse.forwarded (BackendCall.entry req.body), st) := by
  have happ : authApplies ("/mcp") = true := by decide
  simp [handleRequest, happ, hauth, hm, hp, handleEntryRoute]

/-- Witness for the amended C4 at a concrete authenticated facade call. -/
theorem facade_forwards_body_unchanged_witness :
    handleRequest envAcceptAll {} reqFacadeCex ("s1") =
      (HttpResponse.forwarded (BackendCall.entry reqFacadeCex.body), {}) :=
  facade_forwards_body_unchanged envAcceptAll {} reqFacadeCex ("s1") ("tok")
    rfl rfl (by decide)

/-- C5: for every successful stream-open request, the first (and only)
frame the gateway writes on the newly opened event stream is the data
message carrying the generated session identifier, and the session is
registered with the partition scope captured at open time. -/
theorem sse_first_frame_session_id (env : GatewayEnv) (st : ServerState)
    (req : HttpRequest) (freshSid : String) (eff : String) (r : ProjectResolution)
    (hm : req.method = "GET") (hp : req.path = "/mcp/sse")
    (hauth : authMiddleware env req.authorization = AuthOutcome.allowed eff)
    (hres : resolveProjectFilter env req.projectHeader env.isRemoteWorkspace = Except.ok r) :
    handleRequest env st req freshSid =
      (HttpResponse.sseOpened [sessionIdFrame freshSid], regSession st freshSid r.projectId) ∧
    [sessionIdFrame freshSid].head? = some (sessionIdFrame freshSid) ∧
    strContainsSub (sessionIdFrame freshSid) freshSid = true := by
  refine ⟨?_, rfl, ?_⟩
  · have happ : authApplies ("/mcp/sse") = true := by decide
    simp [handleRequest, happ, hauth, hm, hp, handleSseOpenRoute, hres]
  · exact strContainsSub_append ("data: \x7b\"sessionId\":\"") freshSid ("\"\x7d\n\n")

/-- Witness for C5 at a concrete authenticated stream-open. -/
theorem sse_first_frame_session_id_witness :
    handleRequest envAcceptAll {} reqSseOpen ("sid1") =
      (HttpResponse.sseOpened [sessionIdFrame ("sid1")], regSession {} ("sid1") none) ∧
    [sessionIdFrame ("sid1")].head? = some (sessionIdFrame ("sid1")) ∧
    strContainsSub (sessionIdFrame ("sid1")) ("sid1") = true :=
  sse_first_frame_session_id envAcceptAll {} reqSseOpen ("sid1") ("tok")
    { projectId := none, provided := false } rfl rfl (by decide) rfl

/-- C6 counterexample: with an empty registry, enumerate-tools for server
alpha under partition proj1 returns the not-found message, and that
message does not mention the partition — refuting the claim that the
not-found message names the server and partition. -/
theorem listMCPTools_partition_cex :
    (listMCPTools depsEmptyRegistry
        { mcpName := some ("alpha"), projectId := some ("proj1") }).servers = [] ∧
    (listMCPTools depsEmptyRegistry
        { mcpName := some ("alpha"), projectId := some ("proj1") }).message =
      some ("MCP服务器 \"alpha\" 未找到或未运行") ∧
    strContainsSub ("MCP服务器 \"alpha\" 未找到或未运行") ("proj1") = false := by
  decide

/-- C6 (amended): every empty-result branch of enumerate-tools returns
servers = [] with a non-empty message and never an error: an absent (or
blank) serverName yields the fixed guidance message regardless of
registry contents; a server not among currently known running,
non-disabled servers yields a message naming the server (but not the
partition); a tool-list fetch failure yields a message naming the
server. -/
theorem listMCPTools_empty_branches (deps : EntryMCPServiceDeps)
    (params : ListMCPToolsParams) :
    (optStrFalsy params.mcpName = true →
       listMCPTools deps params =
         { servers := [], message := some ("请查看mcp-router技能") } ∧
       (("请查看mcp-router技能") == "") = false) ∧
    (∀ name, params.mcpName = some name → (name == "") = false →
       deps.getServers.find?
           (fun s => s.name == name && s.status == ServerStatus.running && !s.disabled) =
         none →
       listMCPTools deps params =
         { servers := []
           message := some ("MCP服务器 \"" ++ name ++ "\" 未找到或未运行") } ∧
       strContainsSub ("MCP服务器 \"" ++ name ++ "\" 未找到或未运行") name = true ∧
       ((("MCP服务器 \"" ++ name ++ "\" 未找到或未运行")) == "") = false) ∧
    (∀ name server e, params.mcpName = some name → (name == "") = false →
       deps.getServers.find?
           (fun s => s.name == name && s.status == ServerStatus.running && !s.disabled) =
         some server →
       deps.getServerTools server.id = Except.error e →
       listMCPTools deps params =
         { servers := []
           message := some ("获取 \"" ++ name ++ "\" 的工具列表失败") } ∧
       strContainsSub ("获取 \"" ++ name ++ "\" 的工具列表失败") name = true ∧
       ((("获取 \"" ++ name ++ "\" 的工具列表失败")) == "") = false) := by
  refine ⟨?_, ?_, ?_⟩
  · intro h
    cases hm : params.mcpName with
    | none => exact ⟨by simp [listMCPTools, hm], by decide⟩
    | some s =>
      have hs : (s == "") = true := by
        have h2 := h
        rw [hm] at h2
        simpa [optStrFalsy] using h2
      exact ⟨by simp [listMCPTools, hm, hs], by decide⟩
  · intro name hm hne hfind
    refine ⟨by simp [listMCPTools, hm, hne, hfind], ?_, ?_⟩
    · exact strContainsSub_append ("MCP服务器 \"") name ("\" 未找到或未运行")
    · exact string_append_ne_empty ("MCP服务器 \"") name ("\" 未找到或未运行") (by decide)
  · intro name server e hm hne hfind htools
    refine ⟨by simp [listMCPTools, hm, hne, hfind, htools], ?_, ?_⟩
    · exact strContainsSub_append ("获取 \"") name ("\" 的工具列表失败")
    · exact string_append_ne_empty ("获取 \"") name ("\" 的工具列表失败") (by decide)

/-- Witness for the amended C6: the not-found branch at a concrete empty
registry. -/
theorem listMCPTools_empty_branches_witness :
    listMCPTools depsEmptyRegistry { mcpName := some ("alpha") } =
      { servers := []
        message := some ("MCP服务器 \"" ++ "alpha" ++ "\" 未找到或未运行") } ∧
    strContainsSub ("MCP服务器 \"" ++ "alpha" ++ "\" 未找到或未运行") ("alpha") = true ∧
    ((("MCP服务器 \"" ++ "alpha" ++ "\" 未找到或未运行")) == "") = false :=
  (listMCPTools_empty_branches depsEmptyRegistry { mcpName := some ("alpha") }).2.1
    ("alpha") rfl (by decide) rfl

/-- C8: on the full-surface and stream-open routes, a partition header
naming a partition the resolver cannot resolve, while the workspace is
not remote, is answered with a client-error envelope carrying the
resolver's message and nothing is forwarded (nor any session
registered); when the workspace is remote, the trimmed raw header value
is trusted verbatim without resolution. -/
theorem partition_gate_full_surface_and_open (env : GatewayEnv) (st : ServerState)
    (req : HttpRequest) (freshSid : String) (eff : String) (raw v : String)
    (hauth : authMiddleware env req.authorization = AuthOutcome.allowed eff)
    (hhdr : req.projectHeader = some raw) (htrim : jsTrim raw = v)
    (hne : (v == "") = false) (hnu : (v == UNASSIGNED_PROJECT_ID) = false) :
    (req.method = "POST" → req.path = "/mcp/aggregator" →
       env.isRemoteWorkspace = false → env.findProjectIdByName v = none →
       handleRequest env st req freshSid =
         (HttpResponse.jsonRpcError 400 (-32602) ("Project \"" ++ v ++ "\" not found")
            (jsOrNullId req.body.id), st)) ∧
    (req.method = "GET" → req.path = "/mcp/sse" →
       env.isRemoteWorkspace = false → env.findProjectIdByName v = none →
       handleRequest env st req freshSid =
         (HttpResponse.sseOpenError 400 ("Project \"" ++ v ++ "\" not found"), st)) ∧
    (req.method = "POST" → req.path = "/mcp/aggregator" → env.isRemoteWorkspace = true →
       handleRequest env st req freshSid =
         (HttpResponse.forwarded (BackendCall.aggregator
            (attachRequestMetadata req.body (some eff) (some v))), st)) ∧
    (req.method = "GET" → req.path = "/mcp/sse" → env.isRemoteWorkspace = true →
       handleRequest env st req freshSid =
         (HttpResponse.sseOpened [sessionIdFrame freshSid], regSession st freshSid (some v))) := by
  refine ⟨?_, ?_, ?_, ?_⟩
  · intro hm hp hrem hnf
    have happ : authApplies ("/mcp/aggregator") = true := by decide
    have hres : resolveProjectFilter env req.projectHeader env.isRemoteWorkspace =
        Except.error ("Project \"" ++ v ++ "\" not found") := by
      simp [resolveProjectFilter, hhdr, htrim, hne, hnu, hrem, hnf]
    simp [handleRequest, happ, hauth, hm, hp, handleAggregatorRoute, hres]
  · intro hm hp hrem hnf
    have happ : authApplies ("/mcp/sse") = true := by decide
    have hres : resolveProjectFilter env req.projectHeader env.isRemoteWorkspace =
        Except.error ("Project \"" ++ v ++ "\" not found") := by
      simp [resolveProjectFilter, hhdr, htrim, hne, hnu, hrem, hnf]
    simp [handleRequest, happ, hauth, hm, hp, handleSseOpenRoute, hres]
  · intro hm hp hrem
    have happ : authApplies ("/mcp/aggregator") = true := by decide
    have hres : resolveProjectFilter env req.projectHeader env.isRemoteWorkspace =
        Except.ok { projectId := some v, provided := true } := by
      simp [resolveProjectFilter, hhdr, htrim, hne, hnu, hrem]
    simp [handleRequest, happ, hauth, hm, hp, handleAggregatorRoute, hres]
  · intro hm hp hrem
    have happ : authApplies ("/mcp/sse") = true := by decide
    have hres : resolveProjectFilter env req.projectHeader env.isRemoteWorkspace =
        Except.ok { projectId := some v, provided := true } := by
      simp [resolveProjectFilter, hhdr, htrim, hne, hnu, hrem]
    simp [handleRequest, happ, hauth, hm, hp, handleSseOpenRoute, hres]

/-- Witness for C8: a concrete full-surface call with an unknown
partition name in a local workspace. -/
theorem partition_gate_full_surface_and_open_witness :
    handleRequest envAcceptAll {} reqAggBadProj ("s1") =
      (HttpResponse.jsonRpcError 400 (-32602) ("Project \"" ++ "projX" ++ "\" not found")
         (jsOrNullId reqAggBadProj.body.id), {}) :=
  (partition_gate_full_surface_and_open envAcceptAll {} reqAggBadProj ("s1") ("tok2")
      (" projX ") ("projX") (by decide) rfl (by decide) (by decide) (by decide)).1
    rfl rfl rfl rfl

/-- C9: the Session Table invariant: the facade, full-surface and
stream-message routes never mutate the table (so a per-request partition
override never persists); an entry is inserted exactly by a successful
stream-open, capturing the partition scope at that moment; a failed open
inserts nothing; the close callback removes the entry from both maps;
and a stream-message referencing an absent session id is answered with
the not-found envelope and the table is left without the entry. -/
theorem session_table_invariant (env : GatewayEnv) (st : ServerState)
    (req : HttpRequest) (freshSid : String) :
    (req.path = "/mcp" → (handleRequest env st req freshSid).2 = st) ∧
    (req.path = "/mcp/aggregator" → (handleRequest env st req freshSid).2 = st) ∧
    (req.path = "/mcp/messages" → (handleRequest env st req freshSid).2 = st) ∧
    (∀ eff r, req.method = "GET" → req.path = "/mcp/sse" →
       authMiddleware env req.authorization = AuthOutcome.allowed eff →
       resolveProjectFilter env req.projectHeader env.isRemoteWorkspace = Except.ok r →
       (handleRequest env st req freshSid).2 = regSession st freshSid r.projectId ∧
       sessionProject (regSession st freshSid r.projectId) freshSid = some r.projectId ∧
       lookupSession (regSession st freshSid r.projectId) freshSid = true) ∧
    (∀ eff msg, req.method = "GET" → req.path = "/mcp/sse" →
       authMiddleware env req.authorization = AuthOutcome.allowed eff →
       resolveProjectFilter env req.projectHeader env.isRemoteWorkspace = Except.error msg →
       (handleRequest env st req freshSid).2 = st) ∧
    (∀ sid, lookupSession (closeSession st sid) sid = false ∧
       sessionProject (closeSession st sid) sid = none) ∧
    (∀ sid eff, req.method = "POST" → req.path = "/mcp/messages" →
       authMiddleware env req.authorization = AuthOutcome.allowed eff →
       firstTruthy req.querySessionId req.headerSessionId = some sid →
       lookupSession st sid = false →
       handleRequest env st req freshSid =
         (HttpResponse.jsonRpcError 404 (-32000) ("Session not found or expired") none, st)) := by
  refine ⟨?_, ?_, ?_, ?_, ?_, ?_, ?_⟩
  · intro hp
    have happ : authApplies ("/mcp") = true := by decide
    unfold handleRequest
    cases hmw : authMiddleware env req.authorization with
    | rejected m => simp [hp, hmw, happ]
    | allowed eff =>
      by_cases hm : req.method = "POST"
      · simp [hp, hmw, hm, happ, handleEntryRoute]
      · have hmb : (req.method == "POST") = false := beq_eq_false_iff_ne.mpr hm
        simp [hp, hmw, hmb, happ]
  · intro hp
    have happ : authApplies ("/mcp/aggregator") = true := by decide
    unfold handleRequest
    cases hmw : authMiddleware env req.authorization with
    | rejected m => simp [hp, hmw, happ]
    | allowed eff =>
      by_cases hm : req.method = "POST"
      · simp [hp, hmw, hm, happ, handleAggregatorRoute_state env st req eff]
      · have hmb : (req.method == "POST") = false := beq_eq_false_iff_ne.mpr hm
        simp [hp, hmw, hmb, happ]
  · intro hp
    have happ : authApplies ("/mcp/messages") = true := by decide
    unfold handleRequest
    cases hmw : authMiddleware env req.authorization with
    | rejected m => simp [hp, hmw, happ]
    | allowed eff =>
      by_cases hm : req.method = "POST"
      · simp [hp, hmw, hm, happ, handleMessagesRoute_state env st req eff]
      · have hmb : (req.method == "POST") = false := beq_eq_false_iff_ne.mpr hm
        simp [hp, hmw, hmb, happ]
  · intro eff r hm hp hmw hres
    have happ : authApplies ("/mcp/sse") = true := by decide
    refine ⟨?_, ?_, ?_⟩
    · simp [handleRequest, happ, hmw, hm, hp, handleSseOpenRoute, hres]
    · simp [sessionProject, regSession, List.lookup]
    · simp [lookupSession, regSession]
  · intro eff msg hm hp hmw hres
    have happ : authApplies ("/mcp/sse") = true := by decide
    simp [handleRequest, happ, hmw, hm, hp, handleSseOpenRoute, hres]
  · intro sid
    exact ⟨any_beq_filter_ne st.sseSessions sid, lookup_filter_ne st.sseSessionProjects sid⟩
  · intro sid eff hm hp hmw hsid hdead
    have happ : authApplies ("/mcp/messages") = true := by decide
    simp [handleRequest, happ, hmw, hm, hp, handleMessagesRoute, hsid, hdead]

/-- Witness for C9: a stream-message referencing an unknown session id on
an empty table is answered 404. -/
theorem session_table_invariant_witness :
    handleRequest envAcceptAll {} reqMsgUnknown ("f1") =
      (HttpResponse.jsonRpcError 404 (-32000) ("Session not found or expired") none, {}) :=
  (session_table_invariant envAcceptAll {} reqMsgUnknown ("f1")).2.2.2.2.2.2
    ("sX") ("tok") rfl rfl (by decide) rfl rfl

/-- C10: a stream-message that supplies its own partition header is
always resolved with full validation — the remote-workspace
trust-verbatim escape hatch is never applied on this route (the resolver
is invoked with validation unconditionally, for every environment,
remote or not) — so an unresolvable partition name is answered with a
client error and the message is not forwarded to the session's channel. -/
theorem messages_route_full_validation (env : GatewayEnv) (st : ServerState)
    (req : HttpRequest) (freshSid : String) (eff sid raw v : String)
    (hm : req.method = "POST") (hp : req.path = "/mcp/messages")
    (hauth : authMiddleware env req.authorization = AuthOutcome.allowed eff)
    (hsid : firstTruthy req.querySessionId req.headerSessionId = some sid)
    (hlive : lookupSession st sid = true)
    (hhdr : req.projectHeader = some raw) (htrim : jsTrim raw = v)
    (hne : (v == "") = false) (hnu : (v == UNASSIGNED_PROJECT_ID) = false)
    (hnf : env.findProjectIdByName v = none) :
    handleRequest env st req freshSid =
      (HttpResponse.jsonRpcError 400 (-32602) ("Project \"" ++ v ++ "\" not found")
         (jsOrNullId req.body.id), st) := by
  have happ : authApplies ("/mcp/messages") = true := by decide
  have hres : resolveProjectFilter env req.projectHeader false =
      Except.error ("Project \"" ++ v ++ "\" not found") := by
    simp [resolveProjectFilter, hhdr, htrim, hne, hnu, hnf]
  simp [handleRequest, happ, hauth, hm, hp, handleMessagesRoute, hsid, hlive, hres]

/-- Witness for C10: a concrete remote-workspace environment where the
same unresolvable header is still rejected on the stream-message route. -/
theorem messages_route_full_validation_witness :
    handleRequest envRemote stOne reqMsgBadProj ("f2") =
      (HttpResponse.jsonRpcError 400 (-32602) ("Project \"" ++ "projX" ++ "\" not found")
         (jsOrNullId reqMsgBadProj.body.id), stOne) :=
  messages_route_full_validation envRemote stOne reqMsgBadProj ("f2") ("tok") ("s9")
    ("projX") ("projX") rfl rfl (by decide) rfl (by decide) rfl (by decide)
    (by decide) (by decide) rfl

end MCPRouter
